import Mathlib

/-!
Shallow embedding of the Fort Siloso Voice Guide application (`src/app.py`).

The application is a Streamlit script: on every user interaction the whole
script re-executes from the top.  Session state (the conversation message
list) survives re-executions.  The three external OpenAI calls
(speech-to-text, chat completion, text-to-speech) are modelled as oracle
functions returning `Except`, so that both the success and failure paths of
the Python `try`/`except` blocks are represented.
-/

namespace FortSiloso

/-- A chat role, corresponding to the `"role"` field of the Python message
dicts (`"system"`, `"user"`, `"assistant"`). -/
inductive Role where
  | system
  | user
  | assistant
deriving DecidableEq, Repr

/-- One entry of the conversation log: `{"role": ..., "content": ...}` in
`app.py`. -/
structure Message where
  role : Role
  content : String
deriving DecidableEq, Repr

/-- The fixed persona/instruction text seeded into the conversation at
session start (`app.py` lines 34-48). -/
def seedContent : String :=
  "You are a knowledgeable, friendly voice guide for Fort Siloso " ++
  "on Sentosa Island, Singapore.\n\n" ++
  "Guidelines:\n" ++
  "- Answer only questions related to Fort Siloso, Sentosa history, " ++
  "WWII coastal defence, the tunnels, guns, exhibits and visitor experience.\n" ++
  "- If the user asks about something unrelated, reply briefly " ++
  "that you only answer questions about Fort Siloso.\n" ++
  "- Prefer short, spoken-style answers: 2–4 sentences, " ++
  "clear and conversational.\n" ++
  "- If the user asks for highly time-sensitive info " ++
  "(ticket prices, exact opening hours, special events), " ++
  "give general guidance and ask them to check the official website " ++
  "or on-site signage for exact details."

/-- The seed `system` message placed at position 0 of the conversation
(`app.py` lines 31-50). -/
def seedMessage : Message :=
  ⟨Role.system, seedContent⟩

/-- `st.session_state.messages` initialization (`app.py` lines 30-50):
the seed list is created only when the key is absent; an existing list is
kept as is across script re-executions. -/
def init_messages (sess : Option (List Message)) : List Message :=
  match sess with
  | some ms => ms
  | none => [seedMessage]

/-- The `clear_chat` handler body (`app.py` line 96):
`st.session_state.messages = st.session_state.messages[:1]`. -/
def clear_chat_handler (msgs : List Message) : List Message :=
  msgs.take 1

/-- The `disabled=not bool(audio_bytes)` flag of the "Ask in voice" button
(`app.py` line 91); for Python `bytes`, `bool` is truth of non-emptiness. -/
def send_button_disabled (audio_bytes : List Nat) : Bool :=
  audio_bytes.isEmpty

/-- Request of the external speech-to-text call
(`client.audio.transcriptions.create`, `app.py` lines 107-110). -/
structure TranscriptionRequest where
  model : String
  file : List Nat
  filename : String
deriving DecidableEq, Repr

/-- Request of the external chat-completion call
(`client.chat.completions.create`, `app.py` lines 118-122). -/
structure CompletionRequest where
  model : String
  messages : List Message
  temperature : ℚ
deriving DecidableEq, Repr

/-- Request of the external text-to-speech call
(`client.audio.speech.create`, `app.py` lines 131-135). -/
structure SpeechRequest where
  model : String
  voice : String
  input : String
deriving DecidableEq, Repr

/-- The three external OpenAI services, as oracle functions.  An `Except`
error models the Python exception raised by the client call. -/
structure Oracles where
  stt : TranscriptionRequest → Except String String
  llm : CompletionRequest → Except String String
  tts : SpeechRequest → Except String (List Nat)

/-- The exact request built by `transcribe_question` (`app.py` lines
104-110): a named in-memory file `question.wav` sent to the
`gpt-4o-mini-transcribe` model. -/
def transcriptionRequest (audio_bytes : List Nat) : TranscriptionRequest :=
  ⟨"gpt-4o-mini-transcribe", audio_bytes, "question.wav"⟩

/-- `transcribe_question` (`app.py` lines 102-111).  It only calls the
external service on the audio bytes; it takes no conversation state. -/
def transcribe_question (stt : TranscriptionRequest → Except String String)
    (audio_bytes : List Nat) : Except String String :=
  stt (transcriptionRequest audio_bytes)

/-- The exact request built inside `get_fort_siloso_answer` (`app.py` lines
118-122): the whole conversation with the new `user` message already
appended, model `gpt-4.1-mini`, temperature 0.4. -/
def completionRequest (msgs : List Message) (question_text : String) :
    CompletionRequest :=
  ⟨"gpt-4.1-mini", msgs ++ [⟨Role.user, question_text⟩], (0.4 : ℚ)⟩

/-- `get_fort_siloso_answer` (`app.py` lines 114-126).  The `user` message
is appended to the conversation state first; then the external completion
call runs on the updated state.  On success the `assistant` message is also
appended; on failure the exception propagates with the `user` message
already in place.  Returns the updated state together with the result. -/
def get_fort_siloso_answer (llm : CompletionRequest → Except String String)
    (question_text : String) (msgs : List Message) :
    List Message × Except String String :=
  let msgs1 := msgs ++ [⟨Role.user, question_text⟩]
  match llm (completionRequest msgs question_text) with
  | Except.ok answer => (msgs1 ++ [⟨Role.assistant, answer⟩], Except.ok answer)
  | Except.error e => (msgs1, Except.error e)

/-- The exact request built by `synthesize_answer` (`app.py` lines
131-135). -/
def speechRequest (answer_text voice_name : String) : SpeechRequest :=
  ⟨"gpt-4o-mini-tts", voice_name, answer_text⟩

/-- `synthesize_answer` (`app.py` lines 129-137): pure pass-through to the
external text-to-speech service; no conversation state involved. -/
def synthesize_answer (tts : SpeechRequest → Except String (List Nat))
    (answer_text voice_name : String) : Except String (List Nat) :=
  tts (speechRequest answer_text voice_name)

/-- One user-visible output emitted during a turn of the pipeline
(`st.write` / `st.error` / `st.audio` calls in `app.py` lines 143-172). -/
inductive Display where
  | userText (s : String)
  | answerText (s : String)
  | errorMsg (s : String)
  | audioOut (b : List Nat)
deriving DecidableEq, Repr

/-- The turn pipeline under `if send_now and audio_bytes:` (`app.py` lines
143-172): transcribe, then answer, then synthesize, each stage halting the
script (`st.stop`) on failure after showing an inline error.  Returns the
conversation state after the turn and the outputs shown to the user. -/
def run_turn (o : Oracles) (voice : String) (audio_bytes : List Nat)
    (msgs : List Message) : List Message × List Display :=
  match transcribe_question o.stt audio_bytes with
  | Except.error e => (msgs, [Display.errorMsg ("Transcription failed: " ++ e)])
  | Except.ok question_text =>
    match get_fort_siloso_answer o.llm question_text msgs with
    | (msgs1, Except.error e) =>
        (msgs1, [Display.userText question_text,
                 Display.errorMsg ("LLM failed: " ++ e)])
    | (msgs1, Except.ok answer_text) =>
        match synthesize_answer o.tts answer_text voice with
        | Except.error e =>
            (msgs1, [Display.userText question_text,
                     Display.answerText answer_text,
                     Display.errorMsg ("TTS failed: " ++ e)])
        | Except.ok answer_audio =>
            (msgs1, [Display.userText question_text,
                     Display.answerText answer_text,
                     Display.audioOut answer_audio])

/-- `st.secrets["OPENAI_API_KEY"]` lookup: the Streamlit secret store as an
association list; a missing key raises, which the `try` at `app.py` lines
17-25 catches. -/
def lookupSecret (secrets : List (String × String)) (k : String) :
    Option String :=
  (secrets.find? (fun p => p.1 == k)).map (fun p => p.2)

/-- The diagnostic shown by `st.error` when the credential is missing
(`app.py` lines 20-24). -/
def missing_key_diagnostic : String :=
  "OPENAI_API_KEY is not set.\n\n" ++
  "On Streamlit Cloud, go to: **Settings → Secrets** and add:\n" ++
  "OPENAI_API_KEY = your_real_key_here"

/-- Inputs to one execution of the Streamlit script: the secret store, the
widget states (which button fired, the captured audio, the selected voice)
and the external services. -/
structure ScriptInput where
  secrets : List (String × String)
  send_now : Bool
  clear_chat : Bool
  audio_bytes : List Nat
  voice : String
  oracles : Oracles

/-- How one script execution ended: halted at startup with a diagnostic
(`st.stop` at `app.py` line 25), re-run requested by the reset handler
(`st.rerun` at line 97), or rendered to the end — with the turn pipeline
either not invoked (`none`) or invoked with the given outputs. -/
inductive ScriptOutcome where
  | halted_at_startup (diagnostic : String)
  | reran
  | rendered (turn : Option (List Display))
deriving DecidableEq, Repr

/-- One top-to-bottom execution of `app.py`, in source order: credential
check (lines 17-25), session-state initialization (lines 30-50), reset
handler (lines 95-97, which truncates and halts via `st.rerun`), then the
guarded turn pipeline (lines 143-172).  Returns the session state left for
the next execution and the outcome. -/
def run_script (inp : ScriptInput) (sess : Option (List Message)) :
    Option (List Message) × ScriptOutcome :=
  match lookupSecret inp.secrets "OPENAI_API_KEY" with
  | none => (sess, ScriptOutcome.halted_at_startup missing_key_diagnostic)
  | some _ =>
    let msgs := init_messages sess
    if inp.clear_chat then
      (some (clear_chat_handler msgs), ScriptOutcome.reran)
    else if inp.send_now && !inp.audio_bytes.isEmpty then
      let r := run_turn inp.oracles inp.voice inp.audio_bytes msgs
      (some r.1, ScriptOutcome.rendered (some r.2))
    else
      (some msgs, ScriptOutcome.rendered none)

/-- The session state carried from one script execution to the next. -/
def session_step (inp : ScriptInput) (sess : Option (List Message)) :
    Option (List Message) :=
  (run_script inp sess).1

/-- A whole session: the script runs once per user interaction, starting
from a fresh session (no `messages` key). -/
def run_session (inps : List ScriptInput) : Option (List Message) :=
  inps.foldl (fun s i => session_step i s) none

end FortSiloso

namespace FortSiloso

/-- Whether a `ScriptOutcome` records an invocation of the turn pipeline. -/
def turn_invoked : ScriptOutcome → Bool
  | ScriptOutcome.rendered (some _) => true
  | _ => false

theorem get_answer_ok (llm : CompletionRequest → Except String String)
    (q : String) (msgs : List Message) (a : String)
    (h : llm (completionRequest msgs q) = Except.ok a) :
    get_fort_siloso_answer llm q msgs =
      (msgs ++ [⟨Role.user, q⟩, ⟨Role.assistant, a⟩], Except.ok a) := by
  simp [get_fort_siloso_answer, h]

theorem get_answer_error (llm : CompletionRequest → Except String String)
    (q : String) (msgs : List Message) (e : String)
    (h : llm (completionRequest msgs q) = Except.error e) :
    get_fort_siloso_answer llm q msgs =
      (msgs ++ [⟨Role.user, q⟩], Except.error e) := by
  simp [get_fort_siloso_answer, h]

theorem run_turn_state_eq_append (o : Oracles) (voice : String)
    (audio : List Nat) (msgs : List Message) :
    ∃ t, (run_turn o voice audio msgs).1 = msgs ++ t ∧
      ∀ m ∈ t, m.role ≠ Role.system := by
  cases h1 : o.stt (transcriptionRequest audio) with
  | error e => exact ⟨[], by simp [run_turn, transcribe_question, h1], by simp⟩
  | ok q =>
    cases h2 : o.llm (completionRequest msgs q) with
    | error e =>
      refine ⟨[⟨Role.user, q⟩], ?_, ?_⟩
      · simp [run_turn, transcribe_question, h1, get_answer_error o.llm q msgs e h2]
      · simp
    | ok a =>
      cases h3 : o.tts (speechRequest a voice) with
      | error e =>
        refine ⟨[⟨Role.user, q⟩, ⟨Role.assistant, a⟩], ?_, ?_⟩
        · simp [run_turn, transcribe_question, synthesize_answer, h1, h3,
            get_answer_ok o.llm q msgs a h2]
        · simp
      | ok b =>
        refine ⟨[⟨Role.user, q⟩, ⟨Role.assistant, a⟩], ?_, ?_⟩
        · simp [run_turn, transcribe_question, synthesize_answer, h1, h3,
            get_answer_ok o.llm q msgs a h2]
        · simp

/-- The invariant carried by the session state across script executions. -/
def SessInv : Option (List Message) → Prop
  | none => True
  | some ms => ms.head? = some seedMessage ∧ ∀ m ∈ ms.tail, m.role ≠ Role.system

theorem init_messages_sessInv (sess : Option (List Message)) (h : SessInv sess) :
    (init_messages sess).head? = some seedMessage ∧
    ∀ m ∈ (init_messages sess).tail, m.role ≠ Role.system := by
  cases sess with
  | none => exact ⟨rfl, by simp [init_messages]⟩
  | some ms => exact h

theorem run_script_state (inp : ScriptInput) (sess : Option (List Message)) :
    (run_script inp sess).1 = sess ∨
    (run_script inp sess).1 = some ((init_messages sess).take 1) ∨
    ∃ t, (run_script inp sess).1 = some (init_messages sess ++ t) ∧
      ∀ m ∈ t, m.role ≠ Role.system := by
  unfold run_script
  cases lookupSecret inp.secrets "OPENAI_API_KEY" with
  | none => left; rfl
  | some key =>
    by_cases hc : inp.clear_chat = true
    · right; left; simp [hc, clear_chat_handler]
    · by_cases hs : (inp.send_now && !inp.audio_bytes.isEmpty) = true
      · right; right
        obtain ⟨t, ht, hr⟩ :=
          run_turn_state_eq_append inp.oracles inp.voice inp.audio_bytes
            (init_messages sess)
        exact ⟨t, by simp [hc, hs, ht], hr⟩
      · right; right
        exact ⟨[], by simp [hc, hs], by simp⟩

theorem sessInv_step (inp : ScriptInput) (sess : Option (List Message))
    (h : SessInv sess) : SessInv (session_step inp sess) := by
  obtain ⟨h1, h2⟩ := init_messages_sessInv sess h
  obtain ⟨rest, hrest⟩ : ∃ rest, init_messages sess = seedMessage :: rest := by
    cases hm : init_messages sess with
    | nil => rw [hm] at h1; simp at h1
    | cons a t =>
      rw [hm] at h1
      simp only [List.head?_cons, Option.some.injEq] at h1
      exact ⟨t, by rw [h1]⟩
  rcases run_script_state inp sess with hcase | hcase | ⟨t, hcase, ht⟩
  · unfold session_step; rw [hcase]; exact h
  · unfold session_step; rw [hcase, hrest]
    exact ⟨rfl, by simp⟩
  · unfold session_step; rw [hcase, hrest]
    refine ⟨rfl, ?_⟩
    intro m hm
    rw [List.cons_append, List.tail_cons] at hm
    rcases List.mem_append.mp hm with hmem | hmem
    · exact h2 m (by rw [hrest]; simpa using hmem)
    · exact ht m hmem

theorem sessInv_foldl (inps : List ScriptInput) (sess : Option (List Message))
    (h : SessInv sess) :
    SessInv (List.foldl (fun s i => session_step i s) sess inps) := by
  induction inps generalizing sess with
  | nil => exact h
  | cons i is ih => exact ih _ (sessInv_step i sess h)

end FortSiloso

namespace FortSiloso

/-- Concrete external services used to exercise the theorems on concrete
inputs: transcription answers "Q", the model answers "A", synthesis yields
the byte sequence `[7]`. -/
def demoOracles : Oracles :=
  ⟨fun _ => Except.ok "Q", fun _ => Except.ok "A", fun _ => Except.ok [7]⟩

/-- A concrete script execution: credential present, a one-byte recording
captured, the send button pressed. -/
def demoSendInput : ScriptInput :=
  ⟨[("OPENAI_API_KEY", "k")], true, false, [1], "alloy", demoOracles⟩

/-- A concrete script execution with no captured recording. -/
def demoEmptyAudioInput : ScriptInput :=
  ⟨[("OPENAI_API_KEY", "k")], true, false, [], "alloy", demoOracles⟩

/-- C1: over every session (any sequence of script executions — turns,
resets, failures — starting from a fresh session), whenever the message
list exists its first element is the original seed system message, and
the seed message occurs in it exactly once (never removed, duplicated, or
displaced from position 0). -/
theorem seed_first_and_unique (inps : List ScriptInput) (ms : List Message)
    (h : run_session inps = some ms) :
    ms.head? = some seedMessage ∧ ms.count seedMessage = 1 := by
  have hinv : SessInv (run_session inps) := sessInv_foldl inps none trivial
  rw [h] at hinv
  obtain ⟨h1, h2⟩ := hinv
  refine ⟨h1, ?_⟩
  cases ms with
  | nil => simp at h1
  | cons a t =>
    simp only [List.head?_cons, Option.some.injEq] at h1
    subst h1
    simp only [List.tail_cons] at h2
    have hni : seedMessage ∉ t := fun hmem => h2 seedMessage hmem rfl
    simp [List.count_cons_self, List.count_eq_zero.mpr hni]

/-- Witness for C1 at a concrete session of one successful turn. -/
theorem seed_first_and_unique_witness :
    ([seedMessage, ⟨Role.user, "Q"⟩, ⟨Role.assistant, "A"⟩] :
        List Message).head? = some seedMessage ∧
    ([seedMessage, ⟨Role.user, "Q"⟩, ⟨Role.assistant, "A"⟩] :
        List Message).count seedMessage = 1 :=
  seed_first_and_unique [demoSendInput] _ rfl

/-- C2: when transcription, answer generation and synthesis all succeed,
the turn leaves the conversation equal to the previous list with exactly
two entries appended at the end — a user message carrying the
transcription output, then an assistant message carrying the generation
output. -/
theorem successful_turn_appends_two (o : Oracles) (voice : String)
    (audio : List Nat) (msgs : List Message) (q a : String) (b : List Nat)
    (h1 : o.stt (transcriptionRequest audio) = Except.ok q)
    (h2 : o.llm (completionRequest msgs q) = Except.ok a)
    (h3 : o.tts (speechRequest a voice) = Except.ok b) :
    run_turn o voice audio msgs =
      (msgs ++ [⟨Role.user, q⟩, ⟨Role.assistant, a⟩],
       [Display.userText q, Display.answerText a, Display.audioOut b]) := by
  simp [run_turn, transcribe_question, synthesize_answer, h1, h3,
    get_answer_ok o.llm q msgs a h2]

/-- Witness for C2 at a concrete successful turn. -/
theorem successful_turn_appends_two_witness :
    run_turn demoOracles "alloy" [1] [seedMessage] =
      ([seedMessage, ⟨Role.user, "Q"⟩, ⟨Role.assistant, "A"⟩],
       [Display.userText "Q", Display.answerText "A", Display.audioOut [7]]) :=
  successful_turn_appends_two demoOracles "alloy" [1] [seedMessage]
    "Q" "A" [7] rfl rfl rfl

/-- C3: when transcription succeeds but the completion call fails, the
conversation grows by exactly the one user entry carrying the transcribed
question; no assistant entry is appended, and the prior messages are
untouched. -/
theorem llm_failure_appends_user_only (o : Oracles) (voice : String)
    (audio : List Nat) (msgs : List Message) (q e : String)
    (h1 : o.stt (transcriptionRequest audio) = Except.ok q)
    (h2 : o.llm (completionRequest msgs q) = Except.error e) :
    run_turn o voice audio msgs =
      (msgs ++ [⟨Role.user, q⟩],
       [Display.userText q, Display.errorMsg ("LLM failed: " ++ e)]) := by
  simp [run_turn, transcribe_question, h1, get_answer_error o.llm q msgs e h2]

/-- Witness for C3 at a concrete turn whose completion call fails. -/
theorem llm_failure_appends_user_only_witness :
    run_turn ⟨fun _ => Except.ok "Q", fun _ => Except.error "boom",
        fun _ => Except.ok [7]⟩ "alloy" [1] [seedMessage] =
      ([seedMessage, ⟨Role.user, "Q"⟩],
       [Display.userText "Q", Display.errorMsg ("LLM failed: " ++ "boom")]) :=
  llm_failure_appends_user_only
    ⟨fun _ => Except.ok "Q", fun _ => Except.error "boom", fun _ => Except.ok [7]⟩
    "alloy" [1] [seedMessage] "Q" "boom" rfl rfl

/-- C4: when the transcription call fails, the turn leaves the
conversation list exactly as it was (same length, same content); only an
inline error is shown.  `transcribe_question` itself takes no conversation
state at all, so the transcription stage cannot read or write it. -/
theorem transcription_failure_preserves_state (o : Oracles) (voice : String)
    (audio : List Nat) (msgs : List Message) (e : String)
    (h : o.stt (transcriptionRequest audio) = Except.error e) :
    run_turn o voice audio msgs =
      (msgs, [Display.errorMsg ("Transcription failed: " ++ e)]) := by
  simp [run_turn, transcribe_question, h]

/-- Witness for C4 at a concrete turn whose transcription call fails. -/
theorem transcription_failure_preserves_state_witness :
    run_turn ⟨fun _ => Except.error "mic", fun _ => Except.ok "A",
        fun _ => Except.ok [7]⟩ "alloy" [1] [seedMessage, ⟨Role.user, "old"⟩] =
      ([seedMessage, ⟨Role.user, "old"⟩],
       [Display.errorMsg ("Transcription failed: " ++ "mic")]) :=
  transcription_failure_preserves_state
    ⟨fun _ => Except.error "mic", fun _ => Except.ok "A", fun _ => Except.ok [7]⟩
    "alloy" [1] [seedMessage, ⟨Role.user, "old"⟩] "mic" rfl

/-- C5: on any conversation whose first element is the seed message, reset
yields exactly the one-element seed list, however many turns preceded;
reset is idempotent, and resetting `[seedMessage]` leaves it unchanged. -/
theorem reset_yields_seed (msgs : List Message)
    (h : msgs.head? = some seedMessage) :
    clear_chat_handler msgs = [seedMessage] ∧
    clear_chat_handler (clear_chat_handler msgs) = clear_chat_handler msgs ∧
    clear_chat_handler [seedMessage] = [seedMessage] := by
  cases msgs with
  | nil => simp at h
  | cons a t =>
    simp only [List.head?_cons, Option.some.injEq] at h
    subst h
    exact ⟨rfl, rfl, rfl⟩

/-- Witness for C5 on a concrete two-turn conversation. -/
theorem reset_yields_seed_witness :
    clear_chat_handler [seedMessage, ⟨Role.user, "hi"⟩, ⟨Role.assistant, "yo"⟩]
        = [seedMessage] ∧
    clear_chat_handler (clear_chat_handler
        [seedMessage, ⟨Role.user, "hi"⟩, ⟨Role.assistant, "yo"⟩]) =
      clear_chat_handler [seedMessage, ⟨Role.user, "hi"⟩, ⟨Role.assistant, "yo"⟩] ∧
    clear_chat_handler [seedMessage] = [seedMessage] :=
  reset_yields_seed [seedMessage, ⟨Role.user, "hi"⟩, ⟨Role.assistant, "yo"⟩] rfl

/-- C6: for every question text, the completion request carries the entire
conversation with the user message appended at the end, model
`gpt-4.1-mini` and temperature fixed at 0.4; and whatever the external
call returns, the state after `get_fort_siloso_answer` extends
`msgs ++ [user question]` — the user message is appended before (and
independently of) the external call. -/
theorem answer_generation_request_shape
    (llm : CompletionRequest → Except String String)
    (q : String) (msgs : List Message) :
    (completionRequest msgs q).messages = msgs ++ [⟨Role.user, q⟩] ∧
    (completionRequest msgs q).temperature = (0.4 : ℚ) ∧
    (completionRequest msgs q).model = "gpt-4.1-mini" ∧
    ∃ t, (get_fort_siloso_answer llm q msgs).1 = msgs ++ ⟨Role.user, q⟩ :: t := by
  refine ⟨rfl, rfl, rfl, ?_⟩
  cases h : llm (completionRequest msgs q) with
  | error e => exact ⟨[], by simp [get_answer_error llm q msgs e h]⟩
  | ok a => exact ⟨[⟨Role.assistant, a⟩], by simp [get_answer_ok llm q msgs a h]⟩

/-- C7: when synthesis fails after transcription and generation succeeded,
the conversation still ends with the user and assistant entries appended
by the generation stage (the synthesis stage does not mutate it), and the
textual answer is still among the outputs shown to the user. -/
theorem tts_failure_keeps_answer (o : Oracles) (voice : String)
    (audio : List Nat) (msgs : List Message) (q a e : String)
    (h1 : o.stt (transcriptionRequest audio) = Except.ok q)
    (h2 : o.llm (completionRequest msgs q) = Except.ok a)
    (h3 : o.tts (speechRequest a voice) = Except.error e) :
    run_turn o voice audio msgs =
      (msgs ++ [⟨Role.user, q⟩, ⟨Role.assistant, a⟩],
       [Display.userText q, Display.answerText a,
        Display.errorMsg ("TTS failed: " ++ e)]) ∧
    Display.answerText a ∈ (run_turn o voice audio msgs).2 := by
  have heq : run_turn o voice audio msgs =
      (msgs ++ [⟨Role.user, q⟩, ⟨Role.assistant, a⟩],
       [Display.userText q, Display.answerText a,
        Display.errorMsg ("TTS failed: " ++ e)]) := by
    simp [run_turn, transcribe_question, synthesize_answer, h1, h3,
      get_answer_ok o.llm q msgs a h2]
  exact ⟨heq, by rw [heq]; simp⟩

/-- Witness for C7 at a concrete turn whose synthesis call fails. -/
theorem tts_failure_keeps_answer_witness :
    run_turn ⟨fun _ => Except.ok "Q", fun _ => Except.ok "A",
        fun _ => Except.error "tts"⟩ "alloy" [1] [seedMessage] =
      ([seedMessage, ⟨Role.user, "Q"⟩, ⟨Role.assistant, "A"⟩],
       [Display.userText "Q", Display.answerText "A",
        Display.errorMsg ("TTS failed: " ++ "tts")]) ∧
    Display.answerText "A" ∈
      (run_turn ⟨fun _ => Except.ok "Q", fun _ => Except.ok "A",
          fun _ => Except.error "tts"⟩ "alloy" [1] [seedMessage]).2 :=
  tts_failure_keeps_answer
    ⟨fun _ => Except.ok "Q", fun _ => Except.ok "A", fun _ => Except.error "tts"⟩
    "alloy" [1] [seedMessage] "Q" "A" "tts" rfl rfl rfl

end FortSiloso

namespace FortSiloso

/-- Whether the character list `text` starts with the character list
`pat`. -/
def startsWithChars : List Char → List Char → Bool
  | [], _ => true
  | _ :: _, [] => false
  | p :: ps, c :: cs => p == c && startsWithChars ps cs

/-- Whether the character list `pat` occurs as a contiguous run inside the
character list `text`. -/
def mentions : List Char → List Char → Bool
  | [], pat => startsWithChars pat []
  | c :: t, pat => startsWithChars pat (c :: t) || mentions t pat

/-- C8: when the secret store has no `OPENAI_API_KEY` entry, the script
halts at startup: the session state is left untouched, the outcome is the
startup halt carrying the diagnostic, the diagnostic names where to
configure the credential (it contains "Settings → Secrets"), and neither
the reset handler nor the turn pipeline runs. -/
theorem missing_credential_halts (inp : ScriptInput)
    (sess : Option (List Message))
    (h : lookupSecret inp.secrets "OPENAI_API_KEY" = none) :
    run_script inp sess =
      (sess, ScriptOutcome.halted_at_startup missing_key_diagnostic) ∧
    mentions missing_key_diagnostic.data "Settings → Secrets".data = true := by
  constructor
  · unfold run_script
    rw [h]
  · decide

/-- Witness for C8 with an empty secret store. -/
theorem missing_credential_halts_witness :
    run_script ⟨[], true, false, [1], "alloy", demoOracles⟩ none =
      (none, ScriptOutcome.halted_at_startup missing_key_diagnostic) ∧
    mentions missing_key_diagnostic.data "Settings → Secrets".data = true :=
  missing_credential_halts ⟨[], true, false, [1], "alloy", demoOracles⟩ none rfl

/-- C9: when no audio has been captured, the send button is disabled and
no execution of the script invokes the turn pipeline, whatever the other
inputs and the session state. -/
theorem no_audio_no_pipeline (inp : ScriptInput)
    (sess : Option (List Message))
    (h : inp.audio_bytes = []) :
    send_button_disabled inp.audio_bytes = true ∧
    turn_invoked (run_script inp sess).2 = false := by
  refine ⟨by simp [send_button_disabled, h], ?_⟩
  unfold run_script
  cases lookupSecret inp.secrets "OPENAI_API_KEY" with
  | none => rfl
  | some key =>
    by_cases hc : inp.clear_chat = true
    · simp [hc, turn_invoked]
    · simp [hc, h, turn_invoked]

/-- Witness for C9: the send button was pressed but no recording exists. -/
theorem no_audio_no_pipeline_witness :
    send_button_disabled demoEmptyAudioInput.audio_bytes = true ∧
    turn_invoked (run_script demoEmptyAudioInput none).2 = false :=
  no_audio_no_pipeline demoEmptyAudioInput none rfl

/-- C10: session-state initialization is idempotent across script
re-executions: a fresh session gets exactly the one seed message, and an
existing message list is returned unchanged — the seed is never
re-created or duplicated on a rerun. -/
theorem init_messages_idempotent :
    init_messages none = [seedMessage] ∧
    (∀ ms : List Message, init_messages (some ms) = ms) ∧
    (∀ sess : Option (List Message),
      init_messages (some (init_messages sess)) = init_messages sess) :=
  ⟨rfl, fun _ => rfl, fun _ => rfl⟩

end FortSiloso
